import Mathlib

/-!
Verification of the KAG (knowledge-augmented generation) document service:
a shallow embedding of the pure/deterministic parts of
`app/services/kag_service.py` and `app/api/routes/kag_routes.py`, with
theorems checking the specified properties of identifier sanitization,
value normalization, graph materialization, query compilation, intent
classification and result deduplication.

Strings are modelled by Lean `String` (a wrapped `List Char`); Python's
`str.upper` / `str.lower` / `str.strip` are modelled character-wise over
ASCII, which is the alphabet all the claims range over.  Fallible external
calls (the OpenAI client) are modelled by an `Except`-valued input: the
caller of the embedded function supplies the outcome of the model call.
Python `float` values produced by `normalize_value` are modelled by exact
rationals; none of the properties proved below depend on rounding.
-/

namespace KagService

/-! ## Character and string helpers -/

/-- Python whitespace characters removed by `str.strip()`. -/
def pyWhitespace (c : Char) : Bool :=
  c = ' ' || c = '\t' || c = '\n' || c = '\r' || c = '\x0b' || c = '\x0c'

/-- `str.strip()` on the character list: drop whitespace from both ends. -/
def stripChars (l : List Char) : List Char :=
  List.rdropWhile pyWhitespace (List.dropWhile pyWhitespace l)

/-- `str.strip()`. -/
def pyStrip (s : String) : String := ⟨stripChars s.data⟩

/-- ASCII uppercasing of one character, as `str.upper` acts on the
ASCII strings the claims range over. -/
def pyUpperStr (s : String) : String := ⟨s.data.map Char.toUpper⟩

/-- ASCII lowercasing, as `str.lower` acts on ASCII strings. -/
def pyLowerStr (s : String) : String := ⟨s.data.map Char.toLower⟩

/-- `.replace(' ', '_')` on a string (single-character replacement). -/
def replaceSpaceUnderscore (s : String) : String :=
  ⟨s.data.map (fun c => if c = ' ' then '_' else c)⟩

/-- The character class `[A-Za-z0-9_]` of the sanitization regex. -/
def isWordChar (c : Char) : Bool := c.isAlphanum || c = '_'

/-- `re.sub(r'[^a-zA-Z0-9_]', '_', s)`: every character outside
`[A-Za-z0-9_]` is replaced by an underscore. -/
def sanitizeIdentifier (s : String) : String :=
  ⟨s.data.map (fun c => if isWordChar c then c else '_')⟩

/-- `pat` is a prefix of `s` (character lists). -/
def startsWithChars : List Char → List Char → Bool
  | [], _ => true
  | _ :: _, [] => false
  | p :: ps, c :: cs => p = c && startsWithChars ps cs

/-- Python's `pat in s` substring test (character lists). -/
def hasSubChars (s pat : List Char) : Bool :=
  match s with
  | [] => startsWithChars pat []
  | _ :: rest => startsWithChars pat s || hasSubChars rest pat

/-! ## Relationship-type derivation (create_dynamic_knowledge_graph line 234)

`relationship_type = relationship['relationship_type'].upper().replace(' ', '_')` -/

/-- The relationship-type identifier computed by
`create_dynamic_knowledge_graph`: upper-case, then replace spaces with
underscores.  No further sanitization is applied on this path. -/
def relationship_type_of (rt : String) : String :=
  replaceSpaceUnderscore (pyUpperStr rt)

/-- Fixed prefix of the `_create_relationship` Cypher f-string, up to the
interpolated relationship type. -/
def relCypherPre : String :=
  "MATCH (d:Document \x7bid: $document_id\x7d) MATCH (source \x7bnode_id: $source_id\x7d)<-[:CONTAINS]-(d) MATCH (target \x7bnode_id: $target_id\x7d)<-[:CONTAINS]-(d) CREATE (source)-[:"

/-- Fixed suffix of the `_create_relationship` Cypher f-string after the
interpolated relationship type. -/
def relCypherPost : String := "]->(target)"

/-- The query string `_create_relationship` sends to the graph store, as a
function of the interpolated relationship type. -/
def relCreationCypher (rt : String) : String :=
  relCypherPre ++ rt ++ relCypherPost

/-! ## Value normalization (normalize_value, kag_service.py lines 186-198) -/

/-- Matcher for `[\d,]+(\.\d+)?$` (the currency regex after the optional
dollar sign): a nonempty run of digits/commas, optionally followed by a dot
and a nonempty run of digits, consuming the whole input.  Since `.` is not
in `[\d,]`, regex backtracking is deterministic and this span-based check
is equivalent. -/
def currencyCore (l : List Char) : Bool :=
  let sp := l.span (fun c => c.isDigit || c == ',')
  decide (1 ≤ sp.1.length) &&
    (match sp.2 with
     | [] => true
     | '.' :: ds => decide (1 ≤ ds.length) && ds.all Char.isDigit
     | _ => false)

/-- `re.match(r'^\$?[\d,]+(\.\d+)?$', ·)`: an optional leading dollar sign
(which must be consumed when present, as `$` is not in `[\d,]`), then
`currencyCore`. -/
def currencyMatch (l : List Char) : Bool :=
  match l with
  | '$' :: rest => currencyCore rest
  | _ => currencyCore l

/-- The date regex `^\d{1,2} S \d{1,2} S \d{2,4}$` where `S` is the
character class containing the slash and the hyphen.  Digit groups and
separators are disjoint character classes, so the greedy span-based check
is equivalent to the backtracking regex. -/
def dateMatch (l : List Char) : Bool :=
  let sp1 := l.span Char.isDigit
  match sp1.2 with
  | s1 :: r1 =>
    decide (1 ≤ sp1.1.length) && decide (sp1.1.length ≤ 2) && (s1 == '/' || s1 == '-') &&
      (let sp2 := r1.span Char.isDigit
       match sp2.2 with
       | s2 :: g3 =>
         decide (1 ≤ sp2.1.length) && decide (sp2.1.length ≤ 2) && (s2 == '/' || s2 == '-') &&
           g3.all Char.isDigit && decide (2 ≤ g3.length) && decide (g3.length ≤ 4)
       | [] => false)
  | [] => false

/-- Decimal value of a digit string. -/
def natOfDigits (l : List Char) : Nat :=
  l.foldl (fun n c => 10 * n + (c.toNat - 48)) 0

/-- Value of a `digits(.digits)?` string as an exact rational (the model of
the `float(...)` conversion; exactness does not matter for the claims). -/
def decimalToRat (l : List Char) : ℚ :=
  let sp := l.span Char.isDigit
  let frac := match sp.2 with
              | '.' :: ds => ds
              | _ => []
  (natOfDigits sp.1 : ℚ) + (natOfDigits frac : ℚ) / ((10 : ℚ) ^ frac.length)

/-- `float(value.strip().replace('$', '').replace(',', ''))` on a string
that matched the currency regex: strip `$` and `,`, then read the decimal.
Python `float` raises exactly when no digit remains (e.g. `","`), which the
code catches with `except: pass`; that is the `none` case here. -/
def parseCurrencyNum (l : List Char) : Option ℚ :=
  let cleaned := l.filter (fun c => !(c == '$' || c == ','))
  if cleaned.any Char.isDigit then some (decimalToRat cleaned) else none

/-- The dynamically-typed values `normalize_value` receives: strings,
numbers (modelled as exact rationals), `None`, and anything else. -/
inductive PyValue where
  | vStr (s : String)
  | vNum (q : ℚ)
  | vNull
  | vOther (tag : String)
deriving DecidableEq

/-- `DynamicDocumentExtractor.normalize_value`: a string matching the
currency pattern on its stripped form is converted to a number (falling
through on a `float` failure); a string matching the date pattern is
returned stripped; every other value is returned unchanged. -/
def normalize_value (v : PyValue) : PyValue :=
  match v with
  | .vStr s =>
    let t := stripChars s.data
    if currencyMatch t then
      match parseCurrencyNum t with
      | some q => .vNum q
      | none => if dateMatch t then .vStr ⟨t⟩ else .vStr s
    else if dateMatch t then .vStr ⟨t⟩ else .vStr s
  | x => x

/-! ## Schema inference (identify_document_type, lines 95-140) -/

/-- One relationship descriptor of the inferred schema JSON. -/
structure RelationshipDecl where
  related_to : String
  relationship_type : String
deriving DecidableEq

/-- One entity descriptor of the inferred schema JSON. -/
structure EntityDecl where
  name : String
  type : String
  attributes : List String
  relationships : List RelationshipDecl
deriving DecidableEq

/-- The inferred document schema
`{document_type, entities, primary_identifiers}`. -/
structure DocumentSchema where
  document_type : String
  entities : List EntityDecl
  primary_identifiers : List String
deriving DecidableEq

/-- The safe default returned on inference failure. -/
def defaultDocumentSchema : DocumentSchema := ⟨"unknown", [], []⟩

/-- `DynamicDocumentExtractor.identify_document_type`.  The external model
call and the `json.loads` parse both sit inside one `try`; its outcome is
the input here: `.error` for a model failure, `.ok none` for a response
whose JSON is malformed, `.ok (some schema)` for a parsed schema. -/
def identify_document_type
    (modelResponse : Except String (Option DocumentSchema)) : DocumentSchema :=
  match modelResponse with
  | .ok (some schema) => schema
  | .ok none => defaultDocumentSchema
  | .error _ => defaultDocumentSchema

/-! ## Relationship materialization (create_dynamic_knowledge_graph, lines 229-269) -/

/-- A dynamic entity instance's attribute map (values irrelevant to the
claims about edge counts). -/
abbrev EntityData := List (String × String)

/-- A value looked up in the extracted data: a Python list of entity
objects, or a single (scalar) entity object. -/
inductive ExtractedValue where
  | vlist (items : List EntityData)
  | vscalar (item : EntityData)
deriving DecidableEq

/-- One relationship edge as created by `_create_relationship`. -/
structure RelEdge where
  source_id : String
  target_id : String
  rel_type : String
deriving DecidableEq

/-- The edges created by the relationship loop of
`create_dynamic_knowledge_graph` for one declared relationship: nothing if
either entity name is missing from the extracted data, otherwise the four
list/scalar cardinality cases with synthetic node ids `name_i` for list
elements and `name` for scalars. -/
def relationship_edges (data : String → Option ExtractedValue)
    (source_entity target_entity relationship_type : String) : List RelEdge :=
  match data source_entity, data target_entity with
  | some source_data, some target_data =>
    match source_data, target_data with
    | .vlist xs, .vlist ys =>
      (List.range xs.length).flatMap (fun i =>
        (List.range ys.length).map (fun j =>
          ⟨source_entity ++ "_" ++ toString i,
           target_entity ++ "_" ++ toString j, relationship_type⟩))
    | .vlist xs, .vscalar _ =>
      (List.range xs.length).map (fun i =>
        ⟨source_entity ++ "_" ++ toString i, target_entity, relationship_type⟩)
    | .vscalar _, .vlist ys =>
      (List.range ys.length).map (fun j =>
        ⟨source_entity, target_entity ++ "_" ++ toString j, relationship_type⟩)
    | .vscalar _, .vscalar _ =>
      [⟨source_entity, target_entity, relationship_type⟩]
  | _, _ => []

/-- All relationship edges of one materialization run: the double loop over
schema entities and their declared relationships. -/
def create_dynamic_knowledge_graph_edges (data : String → Option ExtractedValue)
    (schema : DocumentSchema) : List RelEdge :=
  schema.entities.flatMap (fun e =>
    e.relationships.flatMap (fun r =>
      relationship_edges data e.name r.related_to
        (relationship_type_of r.relationship_type)))

/-! ## Intent classification (analyze_query_intent, lines 574-648) -/

/-- Keyword vocabulary of the price category. -/
def priceTerms : List String := ["price", "total", "amount", "cost", "how much"]

/-- Keyword vocabulary of the invoice-number category. -/
def invoiceNumberTerms : List String := ["invoice number", "invoice id", "invoice #"]

/-- Keyword vocabulary of the date category. -/
def dateTerms : List String := ["date", "when", "time", "issued"]

/-- Keyword vocabulary of the product-details category. -/
def productTerms : List String := ["product", "item", "line item", "details", "what\x27s included"]

/-- `any(term in query_lower for term in terms)`. -/
def containsAnyTerm (q : String) (terms : List String) : Bool :=
  terms.any (fun t => hasSubChars q.data t.data)

/-- The intent dictionary `{type, fields}` returned by
`analyze_query_intent`. -/
structure QueryIntent where
  type : String
  fields : List String
deriving DecidableEq

/-- `DocumentExtractorAPI.analyze_query_intent`.  The model call's outcome
is the `modelResponse` input; on `.error` the rule-based keyword fallback
runs on the lower-cased query. -/
def analyze_query_intent (modelResponse : Except String QueryIntent)
    (query : String) : QueryIntent :=
  let query_lower := pyLowerStr query
  match modelResponse with
  | .ok intent => intent
  | .error _ =>
    if containsAnyTerm query_lower priceTerms then ⟨"price", ["total_amount"]⟩
    else if containsAnyTerm query_lower invoiceNumberTerms then ⟨"invoice_number", []⟩
    else if containsAnyTerm query_lower dateTerms then ⟨"date", ["date"]⟩
    else if containsAnyTerm query_lower productTerms then ⟨"product_details", ["line_items"]⟩
    else ⟨"general", ["total_amount", "date", "line_items"]⟩

/-- Spec-side definition (written from the spec's words, for comparison):
the fallback classifies by substring checks in the priority order
price-terms, invoice-number-terms, date-terms, product-terms, else
general. -/
def fallbackCategorySpec (query_lower : String) : String :=
  if containsAnyTerm query_lower priceTerms then "price"
  else if containsAnyTerm query_lower invoiceNumberTerms then "invoice_number"
  else if containsAnyTerm query_lower dateTerms then "date"
  else if containsAnyTerm query_lower productTerms then "product_details"
  else "general"

/-- Spec-side definition: the fixed field set of each category. -/
def categoryFieldsSpec (category : String) : List String :=
  if category = "price" then ["total_amount"]
  else if category = "invoice_number" then []
  else if category = "date" then ["date"]
  else if category = "product_details" then ["line_items"]
  else ["total_amount", "date", "line_items"]

/-! ## Result deduplication (generate_text_response, kag_routes.py lines 226-234) -/

/-- A matched-document row as consumed by the text renderer; only the
invoice number takes part in deduplication. -/
structure ResultRow where
  invoice_number : String
  payload : List (String × String)
deriving DecidableEq

/-- The deduplication loop's body: `seen` is the set of invoice numbers
already kept (a list, since only membership is consulted). -/
def dedupGo (seen : List String) : List ResultRow → List ResultRow
  | [] => []
  | r :: rs =>
    if r.invoice_number ∈ seen then dedupGo seen rs
    else r :: dedupGo (r.invoice_number :: seen) rs

/-- The deduplication pass of `generate_text_response`: keep a result only
when its invoice number has not been seen yet. -/
def generate_text_response_dedup (results : List ResultRow) : List ResultRow :=
  dedupGo [] results

/-- Spec-side definition (written from the spec's words, for comparison):
keep the first occurrence of each invoice number and drop every later
result carrying the same invoice number, preserving order. -/
def keepFirstByInvoice : List ResultRow → List ResultRow
  | [] => []
  | r :: rs =>
    r :: keepFirstByInvoice (rs.filter (fun x => decide (x.invoice_number ≠ r.invoice_number)))
termination_by l => l.length
decreasing_by
  simp only [List.length_cons]
  exact Nat.lt_succ_of_le (List.length_filter_le _ _)

/-! ## Fixed invoice search (DocumentExtractorAPI.search, lines 554-568) -/

/-- The fixed Cypher text `DocumentExtractorAPI.search` always runs. -/
def invoiceSearchCypher : String :=
  "MATCH (i:Invoice)-[:CONTAINS]->(item) WHERE i.invoice_number IS NOT NULL RETURN i.id as document_id, i.invoice_number as invoice_number, i.date as date, i.total_amount as total_amount, collect(properties(item)) as line_items"

/-- `DocumentExtractorAPI.search`: both parameters are accepted and
ignored; the fixed query is executed against the store (modelled by the
`execQuery` evaluation function). -/
def DocumentExtractorAPI_search {α : Type} (query : String)
    (document_type : Option String) (execQuery : String → List α) : List α :=
  execQuery invoiceSearchCypher

/-! ## Invoice-path ingestion (process_document, lines 388-520) -/

/-- The `document_node` object of the model's graph-structure JSON. -/
structure KgDocumentNode where
  type : String
  properties : List (String × String)
deriving DecidableEq

/-- One `entities` element of the graph-structure JSON. -/
structure KgEntity where
  label : String
  properties : List (String × String)
deriving DecidableEq

/-- One `relationships` element of the graph-structure JSON. -/
structure KgRelationship where
  from_node : Nat
  to_node : Nat
  type : String
  properties : List (String × String)
deriving DecidableEq

/-- The graph-structure JSON returned by the model in `process_document`. -/
structure KgGraphStructure where
  document_node : KgDocumentNode
  entities : List KgEntity
  relationships : List KgRelationship
deriving DecidableEq

/-- One write issued to the graph store. -/
inductive GraphOp where
  | createDocumentNode (label : String) (properties : List (String × String)) (document_id : String)
  | createEntityNode (label : String) (properties : List (String × String)) (node_id : String)
  | createRelationshipEdge (rel_type : String) (from_id to_id : String)
      (properties : List (String × String))
deriving DecidableEq

/-- The sequence of graph writes `process_document` performs for a parsed
graph structure: the document node is created with the hard-coded label
`Invoice` (the model-supplied `document_node.type` is bound to a local and
never used), then one sanitized-label entity node per entity with node id
`node_{idx}`, then one sanitized relationship edge per relationship. -/
def process_document_graph_ops (document_id : String)
    (gs : KgGraphStructure) : List GraphOp :=
  let doc_props := gs.document_node.properties
  let _doc_type := gs.document_node.type
  [GraphOp.createDocumentNode "Invoice" doc_props document_id]
    ++ gs.entities.enum.map (fun ie =>
        GraphOp.createEntityNode (sanitizeIdentifier ie.2.label) ie.2.properties
          ("node_" ++ toString ie.1))
    ++ gs.relationships.map (fun r =>
        GraphOp.createRelationshipEdge (sanitizeIdentifier (pyUpperStr r.type))
          ("node_" ++ toString r.from_node) ("node_" ++ toString r.to_node) r.properties)

/-- `DocumentExtractorAPI.process_input` delegates to `process_document`
unchanged. -/
def DocumentExtractorAPI_process_input (document_id : String)
    (gs : KgGraphStructure) : List GraphOp :=
  process_document_graph_ops document_id gs

/-! ## Semantic-search query compilation (semantic_search_graph, lines 332-386) -/

/-- One attribute condition of the structured search specification
(JSON keys `entity`, `attribute`, `condition`, `value`). -/
structure SearchAttribute where
  entity : String
  attrName : String
  condition : String
  value : String
deriving DecidableEq

/-- One relationship traversal of the search specification
(JSON keys `from`, `to`, `type`). -/
structure SearchRelationship where
  fromType : String
  toType : String
  relType : String
deriving DecidableEq

/-- The structured search specification the model returns. -/
structure SearchParams where
  entity_types : List String
  attributes : List SearchAttribute
  relationships : List SearchRelationship
deriving DecidableEq

/-- The initial clause `MATCH (d:Document)`. -/
def documentMatchClause : String := "MATCH (d:Document)"

/-- The optional document-type filter clause; Python `if document_type:`
also skips the empty string. -/
def docTypeFilter (document_type : Option String) : List String :=
  match document_type with
  | some t => if t = "" then [] else ["WHERE d.type = \x27" ++ t ++ "\x27"]
  | none => []

/-- The entity match clause bound to the generated variable `e{i}`. -/
def entityMatchClause (i : Nat) (entity_type : String) : String :=
  "MATCH (d)-[:CONTAINS]->(e" ++ toString i ++ ":" ++ entity_type ++ ")"

/-- The relationship traversal clause; the relationship type is
upper-cased with spaces replaced by underscores, as on the
materialization path. -/
def relTraversalClause (r : SearchRelationship) : String :=
  "MATCH (" ++ r.fromType ++ ")-[:" ++ relationship_type_of r.relType ++ "]->(" ++ r.toType ++ ")"

/-- The body of the attribute-condition loop: the `if`/`elif` chain over
the condition enum appends one rendered condition (an unknown condition
string appends nothing). -/
def whereConditionStep (acc : List String) (a : SearchAttribute) : List String :=
  if a.condition = "equals" then
    acc ++ [a.entity ++ "." ++ a.attrName ++ " = \x27" ++ a.value ++ "\x27"]
  else if a.condition = "contains" then
    acc ++ [a.entity ++ "." ++ a.attrName ++ " CONTAINS \x27" ++ a.value ++ "\x27"]
  else if a.condition = "greater_than" then
    acc ++ [a.entity ++ "." ++ a.attrName ++ " > " ++ a.value]
  else if a.condition = "less_than" then
    acc ++ [a.entity ++ "." ++ a.attrName ++ " < " ++ a.value]
  else acc

/-- The `cypher_parts` list built by `semantic_search_graph`, loop by
loop: entity matches, the conjoined `WHERE` clause (only when at least one
condition rendered), relationship traversals, and the `RETURN`
projection. -/
def semantic_search_cypher_parts (p : SearchParams)
    (document_type : Option String) : List String :=
  let parts1 := [documentMatchClause] ++ docTypeFilter document_type
  let parts2 := p.entity_types.enum.foldl
      (fun acc ie => acc ++ [entityMatchClause ie.1 ie.2]) parts1
  let where_conditions := p.attributes.foldl whereConditionStep []
  let parts3 := if where_conditions.isEmpty then parts2
                else parts2 ++ ["WHERE " ++ String.intercalate " AND " where_conditions]
  let parts4 := p.relationships.foldl (fun acc r => acc ++ [relTraversalClause r]) parts3
  let return_vars := p.entity_types.enum.foldl
      (fun acc ie => acc ++ ["e" ++ toString ie.1 ++ " as " ++ ie.2])
      ["d.id as document_id", "d.type as document_type"]
  parts4 ++ ["RETURN " ++ String.intercalate ", " return_vars]

/-- `cypher_query = " ".join(cypher_parts)`. -/
def semantic_search_cypher (p : SearchParams) (document_type : Option String) : String :=
  String.intercalate " " (semantic_search_cypher_parts p document_type)

/-- Spec-side definition (written from the spec's words, for comparison):
the condition enum maps `equals` to `=`, `contains` to `CONTAINS`,
`greater_than` to `>` and `less_than` to `<`. -/
def attrConditionSpec (a : SearchAttribute) : Option String :=
  if a.condition = "equals" then
    some (a.entity ++ "." ++ a.attrName ++ " = \x27" ++ a.value ++ "\x27")
  else if a.condition = "contains" then
    some (a.entity ++ "." ++ a.attrName ++ " CONTAINS \x27" ++ a.value ++ "\x27")
  else if a.condition = "greater_than" then
    some (a.entity ++ "." ++ a.attrName ++ " > " ++ a.value)
  else if a.condition = "less_than" then
    some (a.entity ++ "." ++ a.attrName ++ " < " ++ a.value)
  else none

/-- Spec-side definition (written from the spec's words, for comparison):
one match clause per declared entity type bound to `e0, e1, …` in
declaration order, the optional type filter, the conjunction of mapped
attribute conditions, one match clause per declared relationship, and a
projection of the Document's id and type plus one column per entity-type
variable. -/
def cypherPartsSpec (p : SearchParams) (document_type : Option String) : List String :=
  [documentMatchClause]
    ++ docTypeFilter document_type
    ++ p.entity_types.enum.map (fun ie => entityMatchClause ie.1 ie.2)
    ++ (let cs := p.attributes.filterMap attrConditionSpec
        if cs.isEmpty then [] else ["WHERE " ++ String.intercalate " AND " cs])
    ++ p.relationships.map relTraversalClause
    ++ ["RETURN " ++ String.intercalate ", "
        (["d.id as document_id", "d.type as document_type"]
          ++ p.entity_types.enum.map (fun ie => "e" ++ toString ie.1 ++ " as " ++ ie.2))]

end KagService

namespace KagService

/-! ## Theorems: sanitization (C5) and relationship types (C1) -/

theorem isWordChar_underscore : isWordChar '_' = true := by decide

/-- C5: for every candidate label or relationship-type string, the output of
the sanitization function `re.sub(r'[^a-zA-Z0-9_]', '_', ·)` contains only
characters in `[A-Za-z0-9_]`, and on a string already consisting only of
such characters the function is the identity. -/
theorem sanitizeIdentifier_ok (s : String) :
    ((sanitizeIdentifier s).data.all isWordChar = true) ∧
    (s.data.all isWordChar = true → sanitizeIdentifier s = s) := by
  constructor
  · show ((s.data.map (fun c => if isWordChar c then c else '_')).all isWordChar) = true
    rw [List.all_map, List.all_eq_true]
    intro c _
    by_cases h : isWordChar c = true
    · simp [h]
    · simp [h, isWordChar_underscore]
  · intro h
    rw [List.all_eq_true] at h
    show (⟨s.data.map (fun c => if isWordChar c then c else '_')⟩ : String) = s
    have hmap : s.data.map (fun c => if isWordChar c then c else '_') = s.data.map id :=
      List.map_congr_left (fun c hc => by simp [h c hc])
    rw [hmap, List.map_id]

/-- Witness for `sanitizeIdentifier_ok`: the sanitized form of
`"Line Item!"` is made of word characters only, and the already-sanitized
string `"Line_Item"` is returned unchanged. -/
theorem sanitizeIdentifier_ok_witness :
    ((sanitizeIdentifier "Line Item!").data.all isWordChar = true) ∧
    sanitizeIdentifier "Line_Item" = "Line_Item" :=
  ⟨(sanitizeIdentifier_ok "Line Item!").1,
   (sanitizeIdentifier_ok "Line_Item").2 (by decide)⟩

/-- C1 counterexample: for the schema-supplied relationship type
`"part-of"`, the identifier actually embedded in the relationship-creation
query is `"PART-OF"`, which is not made of `[A-Za-z0-9_]` characters only —
the dynamic-materializer path applies no label-style sanitization. -/
theorem relationship_type_not_sanitized_cex :
    relationship_type_of "part-of" = "PART-OF" ∧
    ((relationship_type_of "part-of").data.all isWordChar = false) := by
  constructor <;> decide

/-- C1 amended: the relationship-type identifier embedded by
`_create_relationship` is derived from the model-supplied string by
upper-casing and replacing spaces with underscores only; the interpolated
string therefore contains no spaces (but may retain other characters
outside `[A-Za-z0-9_]`). -/
theorem relationship_type_amended (rt : String) :
    relCreationCypher (relationship_type_of rt) =
      relCypherPre ++ relationship_type_of rt ++ relCypherPost ∧
    ((relationship_type_of rt).data.all (fun c => !(c == ' '))) = true := by
  refine ⟨rfl, ?_⟩
  show (((pyUpperStr rt).data.map (fun c => if c = ' ' then '_' else c)).all
    (fun c => !(c == ' '))) = true
  rw [List.all_map, List.all_eq_true]
  intro c _
  by_cases h : c = ' ' <;> simp [h]

/-! ## Theorems: value normalization (C4) -/

theorem head?_dropWhile_false (p : Char → Bool) (l : List Char) :
    ∀ c, (List.dropWhile p l).head? = some c → p c = false := by
  induction l with
  | nil => intro c h; simp at h
  | cons a l ih =>
    intro c h
    by_cases hpa : p a = true
    · rw [List.dropWhile_cons, if_pos hpa] at h
      exact ih c h
    · rw [List.dropWhile_cons, if_neg hpa] at h
      have hac : a = c := by simpa using h
      subst hac
      simpa using hpa

theorem dropWhile_eq_self_of_head (p : Char → Bool) :
    ∀ (x : List Char), (∀ c, x.head? = some c → p c = false) →
      List.dropWhile p x = x
  | [], _ => rfl
  | c :: cs, h => by
    have hc : p c = false := h c rfl
    rw [List.dropWhile_cons, if_neg (by simp [hc])]

theorem stripChars_idem (l : List Char) :
    stripChars (stripChars l) = stripChars l := by
  unfold stripChars
  set a := List.dropWhile pyWhitespace l with ha
  have h1 : List.dropWhile pyWhitespace (List.rdropWhile pyWhitespace a) =
      List.rdropWhile pyWhitespace a := by
    apply dropWhile_eq_self_of_head
    intro c hc
    obtain ⟨t, ht⟩ := List.rdropWhile_prefix pyWhitespace a
    have hne : List.rdropWhile pyWhitespace a ≠ [] := by
      intro h0
      rw [h0] at hc
      simp at hc
    have hahead : a.head? = some c := by
      rw [← ht, List.head?_append_of_ne_nil _ hne]
      exact hc
    rw [ha] at hahead
    exact head?_dropWhile_false pyWhitespace l c hahead
  rw [h1, List.rdropWhile_idempotent]

/-- C4: value normalization is idempotent — for every value (string,
number, null, or other), `normalize_value (normalize_value v) =
normalize_value v`; in particular an already-numeric value is left as is. -/
theorem normalize_value_idem (v : PyValue) :
    normalize_value (normalize_value v) = normalize_value v := by
  match v with
  | .vNum q => rfl
  | .vNull => rfl
  | .vOther t => rfl
  | .vStr s =>
    have ht : stripChars (String.mk (stripChars s.data)).data = stripChars s.data :=
      stripChars_idem s.data
    by_cases hc : currencyMatch (stripChars s.data) = true
    · cases hp : parseCurrencyNum (stripChars s.data) with
      | some q => simp [normalize_value, hc, hp]
      | none =>
        by_cases hd : dateMatch (stripChars s.data) = true
        · simp [normalize_value, hc, hp, hd, ht]
        · simp [normalize_value, hc, hp, hd]
    · by_cases hd : dateMatch (stripChars s.data) = true
      · simp [normalize_value, hc, hd, ht]
      · simp [normalize_value, hc, hd]

end KagService

namespace KagService

/-! ## Theorems: cardinality resolution (C2) -/

theorem length_range_flatMap_map {β : Type} (m n : Nat) (f : Nat → Nat → β) :
    ((List.range m).flatMap (fun i => (List.range n).map (f i))).length = m * n := by
  induction m with
  | zero => simp
  | succ k ih => simp [List.range_succ, ih, Nat.succ_mul]

/-- C2: for a relationship whose source and target entity names are both
present in the extracted data, the materializer creates exactly `m*n`
edges for list×list, `m` for list×scalar, `n` for scalar×list and `1` for
scalar×scalar; a missing entity on either side creates no edge. -/
theorem cardinality_resolution (data : String → Option ExtractedValue)
    (src tgt rt : String) (xs ys : List EntityData) (x y : EntityData) :
    (data src = some (.vlist xs) → data tgt = some (.vlist ys) →
      (relationship_edges data src tgt rt).length = xs.length * ys.length) ∧
    (data src = some (.vlist xs) → data tgt = some (.vscalar y) →
      (relationship_edges data src tgt rt).length = xs.length) ∧
    (data src = some (.vscalar x) → data tgt = some (.vlist ys) →
      (relationship_edges data src tgt rt).length = ys.length) ∧
    (data src = some (.vscalar x) → data tgt = some (.vscalar y) →
      (relationship_edges data src tgt rt).length = 1) ∧
    (data src = none → relationship_edges data src tgt rt = []) ∧
    (data tgt = none → relationship_edges data src tgt rt = []) := by
  refine ⟨?_, ?_, ?_, ?_, ?_, ?_⟩
  · intro h1 h2
    simp only [relationship_edges, h1, h2]
    exact length_range_flatMap_map _ _ _
  · intro h1 h2
    simp [relationship_edges, h1, h2]
  · intro h1 h2
    simp [relationship_edges, h1, h2]
  · intro h1 h2
    simp [relationship_edges, h1, h2]
  · intro h1
    simp [relationship_edges, h1]
  · intro h2
    cases h1 : data src with
    | none => simp [relationship_edges, h1, h2]
    | some v => simp [relationship_edges, h1, h2]

/-- Witness for `cardinality_resolution`: a 2-element source list and a
3-element target list produce exactly 6 edges. -/
theorem cardinality_resolution_witness :
    (relationship_edges
      (fun n => if n = "line_items" then some (.vlist [[], []])
                else if n = "customer" then some (.vlist [[], [], []])
                else none)
      "line_items" "customer" "ORDERED_BY").length = 2 * 3 :=
  (cardinality_resolution _ "line_items" "customer" "ORDERED_BY"
    [[], []] [[], [], []] [] []).1 (by decide) (by decide)

/-! ## Theorems: schema-inference fallback (C6) -/

/-- C6: whenever the model call fails or its response does not parse as
JSON, `identify_document_type` returns the safe default
`{document_type: "unknown", entities: [], primary_identifiers: []}`; being
a total function of the call's outcome, it propagates no exception. -/
theorem identify_document_type_default
    (modelResponse : Except String (Option DocumentSchema))
    (h : ∀ s, modelResponse ≠ .ok (some s)) :
    identify_document_type modelResponse = ⟨"unknown", [], []⟩ := by
  match modelResponse with
  | .ok (some s) => exact absurd rfl (h s)
  | .ok none => rfl
  | .error e => rfl

/-- Witness for `identify_document_type_default`: a failing model call
yields the safe default schema. -/
theorem identify_document_type_default_witness :
    identify_document_type (.error "model error") = ⟨"unknown", [], []⟩ :=
  identify_document_type_default (.error "model error")
    (fun _ h => Except.noConfusion h)

/-! ## Theorems: intent-classification fallback (C7) -/

/-- C7: when the model call fails, `analyze_query_intent` classifies the
lower-cased query by substring checks in the priority order price-terms,
invoice-number-terms, date-terms, product-terms, else general, and returns
the fixed field set of the resulting category. -/
theorem intent_fallback_spec (query e : String) :
    analyze_query_intent (.error e) query =
      ⟨fallbackCategorySpec (pyLowerStr query),
       categoryFieldsSpec (fallbackCategorySpec (pyLowerStr query))⟩ := by
  have hred : analyze_query_intent (.error e) query =
      (if containsAnyTerm (pyLowerStr query) priceTerms then
        (⟨"price", ["total_amount"]⟩ : QueryIntent)
       else if containsAnyTerm (pyLowerStr query) invoiceNumberTerms then
        ⟨"invoice_number", []⟩
       else if containsAnyTerm (pyLowerStr query) dateTerms then
        ⟨"date", ["date"]⟩
       else if containsAnyTerm (pyLowerStr query) productTerms then
        ⟨"product_details", ["line_items"]⟩
       else ⟨"general", ["total_amount", "date", "line_items"]⟩) := rfl
  rw [hred]
  unfold fallbackCategorySpec
  split_ifs <;> rfl

/-! ## Theorems: deduplication by invoice number (C8) -/

theorem keepFirstByInvoice_nil : keepFirstByInvoice [] = [] := by
  rw [keepFirstByInvoice]

theorem keepFirstByInvoice_cons (r : ResultRow) (rs : List ResultRow) :
    keepFirstByInvoice (r :: rs) =
      r :: keepFirstByInvoice
        (rs.filter (fun x => decide (x.invoice_number ≠ r.invoice_number))) := by
  rw [keepFirstByInvoice]

theorem dedupGo_eq_keepFirst (rs : List ResultRow) : ∀ seen : List String,
    dedupGo seen rs =
      keepFirstByInvoice (rs.filter (fun x => decide (x.invoice_number ∉ seen))) := by
  induction rs with
  | nil => intro seen; simp [dedupGo, keepFirstByInvoice_nil]
  | cons r rs ih =>
    intro seen
    by_cases hm : r.invoice_number ∈ seen
    · calc dedupGo seen (r :: rs) = dedupGo seen rs := by
            simp [dedupGo, hm]
        _ = keepFirstByInvoice (rs.filter (fun x => decide (x.invoice_number ∉ seen))) :=
            ih seen
        _ = keepFirstByInvoice ((r :: rs).filter (fun x => decide (x.invoice_number ∉ seen))) := by
            rw [List.filter_cons]
            simp [hm]
    · have hfilter :
          (rs.filter (fun x => decide (x.invoice_number ∉ seen))).filter
              (fun x => decide (x.invoice_number ≠ r.invoice_number)) =
            rs.filter (fun x => decide (x.invoice_number ∉ r.invoice_number :: seen)) := by
        rw [List.filter_filter]
        apply List.filter_congr
        intro x _
        rw [← Bool.decide_and, decide_eq_decide]
        simp [List.mem_cons, not_or, and_comm]
      calc dedupGo seen (r :: rs)
          = r :: dedupGo (r.invoice_number :: seen) rs := by
            simp [dedupGo, hm]
        _ = r :: keepFirstByInvoice
              (rs.filter (fun x => decide (x.invoice_number ∉ r.invoice_number :: seen))) := by
            rw [ih]
        _ = r :: keepFirstByInvoice
              ((rs.filter (fun x => decide (x.invoice_number ∉ seen))).filter
                (fun x => decide (x.invoice_number ≠ r.invoice_number))) := by
            rw [hfilter]
        _ = keepFirstByInvoice ((r :: rs).filter (fun x => decide (x.invoice_number ∉ seen))) := by
            rw [List.filter_cons]
            have hr : (decide (r.invoice_number ∉ seen)) = true := by simp [hm]
            simp only [hr, if_true]
            rw [keepFirstByInvoice_cons]

theorem dedupGo_sublist (rs : List ResultRow) : ∀ seen : List String,
    List.Sublist (dedupGo seen rs) rs := by
  induction rs with
  | nil => intro seen; simp [dedupGo]
  | cons r rs ih =>
    intro seen
    by_cases hm : r.invoice_number ∈ seen
    · simp only [dedupGo, if_pos hm]
      exact List.Sublist.cons r (ih seen)
    · simp only [dedupGo, if_neg hm]
      exact List.Sublist.cons₂ r (ih _)

theorem dedupGo_nodup (rs : List ResultRow) : ∀ seen : List String,
    ((dedupGo seen rs).map (fun r => r.invoice_number)).Nodup ∧
    ∀ r ∈ dedupGo seen rs, r.invoice_number ∉ seen := by
  induction rs with
  | nil => intro seen; exact ⟨List.nodup_nil, by simp [dedupGo]⟩
  | cons r rs ih =>
    intro seen
    by_cases hm : r.invoice_number ∈ seen
    · simpa [dedupGo, hm] using ih seen
    · have ih' := ih (r.invoice_number :: seen)
      constructor
      · simp only [dedupGo, if_neg hm, List.map_cons, List.nodup_cons]
        refine ⟨?_, ih'.1⟩
        intro hmem
        obtain ⟨x, hx, hxe⟩ := List.mem_map.mp hmem
        exact ih'.2 x hx (by rw [hxe]; exact List.mem_cons_self _ _)
      · intro x hx
        simp only [dedupGo, if_neg hm] at hx
        rcases List.mem_cons.mp hx with h | h
        · rw [h]; exact hm
        · exact fun hs => ih'.2 x h (List.mem_cons_of_mem _ hs)

/-- C8: the deduplication pass before text rendering keeps exactly the
first occurrence of each invoice number (it equals the keep-first spec
function), preserves the relative order of kept rows (it is a sublist of
the input), and leaves no duplicate invoice numbers. -/
theorem dedup_first_occurrence (results : List ResultRow) :
    generate_text_response_dedup results = keepFirstByInvoice results ∧
    List.Sublist (generate_text_response_dedup results) results ∧
    ((generate_text_response_dedup results).map (fun r => r.invoice_number)).Nodup := by
  refine ⟨?_, dedupGo_sublist results [], (dedupGo_nodup results []).1⟩
  have h := dedupGo_eq_keepFirst results []
  simpa [generate_text_response_dedup] using h

/-! ## Theorems: fixed invoice search (C9) -/

/-- C9: `DocumentExtractorAPI.search` is insensitive to both of its inputs:
for any two query strings and any two document-type filters it issues the
same fixed Cypher text, hence returns identical results over the same
store state. -/
theorem search_input_insensitive {α : Type} (q1 q2 : String)
    (t1 t2 : Option String) (execQuery : String → List α) :
    DocumentExtractorAPI_search q1 t1 execQuery = DocumentExtractorAPI_search q2 t2 execQuery ∧
    DocumentExtractorAPI_search q1 t1 execQuery = execQuery invoiceSearchCypher :=
  ⟨rfl, rfl⟩

/-! ## Theorems: invoice-path document label (C10) -/

/-- C10: every document ingested through `process_input` /
`process_document` creates its document node with the hard-coded label
`Invoice`; the write sequence is unchanged when the model-supplied
`document_node.type` changes, since that value is read into a local and
never used. -/
theorem process_document_invoice_label (docId : String) (gs : KgGraphStructure)
    (t : String) :
    (process_document_graph_ops docId gs).head? =
      some (GraphOp.createDocumentNode "Invoice" gs.document_node.properties docId) ∧
    process_document_graph_ops docId
        ⟨⟨t, gs.document_node.properties⟩, gs.entities, gs.relationships⟩ =
      process_document_graph_ops docId gs ∧
    DocumentExtractorAPI_process_input docId gs = process_document_graph_ops docId gs :=
  ⟨rfl, rfl, rfl⟩

end KagService

namespace KagService

/-! ## Theorems: semantic-search query compilation (C3) -/

theorem foldl_append_singleton {α β : Type} (l : List α) (f : α → β) :
    ∀ init : List β, l.foldl (fun acc x => acc ++ [f x]) init = init ++ l.map f := by
  induction l with
  | nil => intro init; simp
  | cons a l ih => intro init; simp [ih, List.append_assoc]

theorem foldl_whereConditionStep (attrs : List SearchAttribute) :
    ∀ init : List String,
      attrs.foldl whereConditionStep init = init ++ attrs.filterMap attrConditionSpec := by
  induction attrs with
  | nil => intro init; simp
  | cons a attrs ih =>
    intro init
    have hstep : whereConditionStep init a = init ++ (attrConditionSpec a).toList := by
      unfold whereConditionStep attrConditionSpec
      split_ifs <;> simp
    cases h : attrConditionSpec a with
    | none => simp [List.foldl_cons, hstep, h, ih]
    | some c => simp [List.foldl_cons, hstep, h, ih, List.append_assoc]

/-- C3: the compiled graph query consists of the initial Document match,
the optional type filter, one match clause per declared entity type bound
to `e0, e1, …` in declaration order, the conjunction of the attribute
conditions mapped per the condition enum, one match clause per declared
relationship, and a projection returning the Document's id and type plus
one column per declared entity-type variable. -/
theorem semantic_search_compilation (p : SearchParams)
    (document_type : Option String) :
    semantic_search_cypher_parts p document_type = cypherPartsSpec p document_type := by
  unfold semantic_search_cypher_parts cypherPartsSpec
  simp only [foldl_append_singleton, foldl_whereConditionStep, List.nil_append]
  by_cases hcs : (p.attributes.filterMap attrConditionSpec).isEmpty <;>
    simp [hcs, List.append_assoc]

end KagService
